import Mathlib

/-!
Verification of the repo2resume contribution-summary pipeline.

The repository is a thin orchestration layer: a backend Activity Fetcher and
Summary Generator wrapping two hosted APIs, and a Next.js client UI.  The
frontend sources are present under src/frontend (and unnamed variants); the
backend Python sources are not in the tree, so the backend operations are
modelled from the specification document, as marked in their doc comments.
Timestamps are modelled as integers (epoch milliseconds); strings are Lean
strings.
-/

namespace Backend

/-- Modelled from the spec: the backend Activity Fetcher is not under src.
A commit, following the data-model table of the spec (identifier, message,
timestamp, author); the timestamp is the creation time as an integer. -/
structure Commit where
  sha : String
  message : String
  timestamp : Int
  author : String
deriving Repr, DecidableEq

/-- A date range with optional inclusive bounds, as in the POST body of
generate-summary (start_date, end_date); absence of a bound removes it. -/
structure DateRange where
  start_date : Option Int
  end_date : Option Int
deriving Repr, DecidableEq

/-- Whether a timestamp falls inside an optional date range: a missing range
or a missing bound imposes no constraint, and both bounds are inclusive. -/
def DateRange.containsTs : Option DateRange → Int → Bool
  | none, _ => true
  | some r, t =>
    (match r.start_date with
     | none => true
     | some s => decide (s ≤ t)) &&
    (match r.end_date with
     | none => true
     | some e => decide (t ≤ e))

/-- Modelled from the spec: the backend Activity Fetcher is not under src.
A change-request, following the data-model table of the spec (number, title,
nullable body, raw state string, label set, created timestamp, nullable
merged timestamp). -/
structure ChangeRequest where
  number : Int
  title : String
  body : Option String
  state : String
  labels : List String
  created_at : Int
  merged_at : Option Int
deriving Repr, DecidableEq

/-- Modelled from the spec: the creation/merge timestamp by which a fetched
change-request is date-filtered; the merge time when the item was merged,
its creation time otherwise. -/
def ChangeRequest.activityTs (pr : ChangeRequest) : Int :=
  match pr.merged_at with
  | some m => m
  | none => pr.created_at

/-- Modelled from the spec: the backend listCommits is not under src.  It
retrieves the unfiltered commit collection and filters locally by timestamp
comparison against the optional date range. -/
def listCommits (commits : List Commit) (range : Option DateRange) : List Commit :=
  commits.filter (fun c => DateRange.containsTs range c.timestamp)

/-- Modelled from the spec: the backend listChangeRequestsInRange is not
under src.  It retrieves the unfiltered change-request collection and filters
locally by the creation/merge timestamp against the optional date range. -/
def listChangeRequestsInRange (prs : List ChangeRequest) (range : Option DateRange) :
    List ChangeRequest :=
  prs.filter (fun pr => DateRange.containsTs range pr.activityTs)

/-- Modelled from the spec: the default instruction header of the Summary
Generator (first-person, achievement-oriented, resume-appropriate tone). -/
def defaultInstructionHeader : String :=
  "Write a first-person, achievement-oriented, resume-appropriate summary of the contributions listed below."

/-- Modelled from the spec: the instruction header of the generated prompt.
The client enforces the non-empty-after-trimming condition on the custom
prompt by trimming it and omitting it from the request when blank, so a
supplied custom prompt replaces the default header verbatim and an absent
one selects the default header. -/
def instructionHeader : Option String → String
  | none => defaultInstructionHeader
  | some s => if s = "" then defaultInstructionHeader else s

/-- Modelled from the spec: rendering of one commit message line of the
structured activity data. -/
def renderCommitLine (c : Commit) : String :=
  "- " ++ c.message

/-- Modelled from the spec: a priority change-request is rendered with its
full body text and labels, with explicit emphasis. -/
def renderPriorityPR (pr : ChangeRequest) : String :=
  "PRIORITY PR #" ++ toString pr.number ++ ": " ++ pr.title ++ "\n"
    ++ (match pr.body with | some b => b | none => "") ++ "\nLabels: "
    ++ String.intercalate ", " pr.labels

/-- Modelled from the spec: a regular change-request is rendered title-only. -/
def renderRegularPR (pr : ChangeRequest) : String :=
  "PR #" ++ toString pr.number ++ ": " ++ pr.title

/-- Modelled from the spec: the single prompt assembled by the Summary
Generator, an instruction header followed by the structured activity data
(commit count and messages, then priority and regular change-requests). -/
def buildPrompt (header : String) (commits : List Commit)
    (priority regular : List ChangeRequest) : String :=
  header ++ "\n\nCommits (" ++ toString commits.length ++ "):\n"
    ++ String.intercalate "\n" (commits.map renderCommitLine)
    ++ "\n\nPriority change requests (emphasize these):\n"
    ++ String.intercalate "\n" (priority.map renderPriorityPR)
    ++ "\n\nOther change requests:\n"
    ++ String.intercalate "\n" (regular.map renderRegularPR)

/-- The upstream activity data of one repository, as returned unfiltered by
the hosted version-control API. -/
structure RepoData where
  commits : List Commit
  change_requests : List ChangeRequest
deriving Repr, DecidableEq

/-- A summary request, as in the data-model table of the spec. -/
structure SummaryRequest where
  repo_name : String
  date_range : Option DateRange
  prioritized_pr_numbers : List Int
  custom_prompt : Option String
deriving Repr, DecidableEq

/-- A summary result, as in the data-model table of the spec. -/
structure SummaryResult where
  summary : String
  repo_name : String
  commits_analyzed : Nat
  prs_analyzed : Nat
deriving Repr, DecidableEq

/-- The commits resolved for a request: the full collection filtered by the
requested date range.  These are exactly the commits passed to the
prompt-building step. -/
def analyzedCommits (data : RepoData) (req : SummaryRequest) : List Commit :=
  listCommits data.commits req.date_range

/-- The change-requests resolved for a request: the full collection filtered
by the requested date range.  These are exactly the change-requests passed
to the prompt-building step. -/
def analyzedPRs (data : RepoData) (req : SummaryRequest) : List ChangeRequest :=
  listChangeRequestsInRange data.change_requests req.date_range

/-- The priority partition: analyzed change-requests whose number occurs in
the prioritized list of the request. -/
def priorityPRs (data : RepoData) (req : SummaryRequest) : List ChangeRequest :=
  (analyzedPRs data req).filter (fun pr => req.prioritized_pr_numbers.contains pr.number)

/-- The regular partition: analyzed change-requests whose number does not
occur in the prioritized list of the request. -/
def regularPRs (data : RepoData) (req : SummaryRequest) : List ChangeRequest :=
  (analyzedPRs data req).filter (fun pr => !(req.prioritized_pr_numbers.contains pr.number))

/-- Modelled from the spec: the backend generateSummary is not under src.
It resolves the commit and change-request collections through the Activity
Fetcher applying the date range, partitions change-requests into priority
and regular, builds one prompt, invokes the generative-text API (abstracted
as the function llm), and returns the text with the counts of items
analyzed. -/
def generateSummary (data : RepoData) (req : SummaryRequest)
    (llm : String → String) : SummaryResult :=
  { summary := llm (buildPrompt (instructionHeader req.custom_prompt)
      (analyzedCommits data req) (priorityPRs data req) (regularPRs data req))
    repo_name := req.repo_name
    commits_analyzed := (analyzedCommits data req).length
    prs_analyzed := (analyzedPRs data req).length }

end Backend

namespace Frontend

/-- A repository, as in the Repository interface of page.tsx. -/
structure Repository where
  name : String
  full_name : String
  description : Option String
  language : Option String
  is_fork : Bool
  is_private : Bool
  url : String
deriving Repr, DecidableEq

/-- A pull request, as in the PullRequest interface of
PriorityPRSelector.tsx; created_at and merged_at are ISO timestamp
strings as delivered by the backend JSON. -/
structure PullRequest where
  number : Int
  title : String
  body : Option String
  state : String
  labels : List String
  created_at : String
  merged_at : Option String
deriving Repr, DecidableEq

/-- JavaScript truthiness of a nullable string: null and the empty string
are falsy, every other string is truthy. -/
def jsTruthyStr : Option String → Bool
  | none => false
  | some s => decide (s ≠ "")

/-- The state badge computed by PriorityPRSelector.tsx for a pull request:
Open when the raw state field is the string open, otherwise Merged when
merged_at is truthy, otherwise Closed. -/
def prStateLabel (pr : PullRequest) : String :=
  if pr.state = "open" then "Open"
  else if jsTruthyStr pr.merged_at then "Merged"
  else "Closed"

/-- A summary response, as in the SummaryResponse interface of page.tsx. -/
structure SummaryResponse where
  summary : String
  repo_name : String
  commits_analyzed : Nat
  prs_analyzed : Nat
deriving Repr, DecidableEq

/-- The POST body of generate-summary, as in the GenerateSummaryRequest
interface of page.tsx; dates are modelled as integers. -/
structure GenerateSummaryRequest where
  repo_name : String
  start_date : Option Int
  end_date : Option Int
  prioritized_pr_numbers : Option (List Int)
  custom_prompt : Option String
deriving Repr, DecidableEq

/-- The react-day-picker DateRange value held by the UI: optional start
and end Date objects, modelled as integers. -/
structure UIDateRange where
  from_ : Option Int
  to_ : Option Int
deriving Repr, DecidableEq

/-- The React state of the Home component of page.tsx, one field per
useState hook. -/
structure HomeState where
  repos : List Repository
  selectedRepo : String
  dateRange : Option UIDateRange
  prioritizedPRs : List Int
  summary : Option SummaryResponse
  loading : Bool
  fetchingRepos : Bool
  error : Option String
  customPrompt : String
  defaultPrompt : String
  isPromptOpen : Bool
deriving Repr, DecidableEq

/-- The JavaScript string trim used by page.tsx, embedded executably over
the character list of the string: leading and trailing whitespace
characters are removed. -/
def jsTrim (s : String) : String :=
  ⟨((s.data.dropWhile Char.isWhitespace).reverse.dropWhile Char.isWhitespace).reverse⟩

/-- The initial values of the useState hooks of Home. -/
def initialHomeState : HomeState :=
  { repos := []
    selectedRepo := ""
    dateRange := none
    prioritizedPRs := []
    summary := none
    loading := false
    fetchingRepos := true
    error := none
    customPrompt := ""
    defaultPrompt := ""
    isPromptOpen := false }

/-- The request body assembled by generateSummary in page.tsx: start and
end dates only when present in the picked range, the prioritized numbers
only when the list is non-empty, and the custom prompt, trimmed, only when
it trims to a non-empty string. -/
def buildRequestBody (st : HomeState) : GenerateSummaryRequest :=
  { repo_name := st.selectedRepo
    start_date := match st.dateRange with
      | some r => r.from_
      | none => none
    end_date := match st.dateRange with
      | some r => r.to_
      | none => none
    prioritized_pr_numbers :=
      if st.prioritizedPRs.length > 0 then some st.prioritizedPRs else none
    custom_prompt :=
      if jsTrim st.customPrompt = "" then none else some (jsTrim st.customPrompt) }

/-- The synchronous prefix of generateSummary in page.tsx: an early return
when no repository is selected (no state change, no request), otherwise the
loading flag is set, the error and any previous summary are cleared, and
the POST request is issued. -/
def generateSummaryStart (st : HomeState) : HomeState × Option GenerateSummaryRequest :=
  if st.selectedRepo = "" then (st, none)
  else ({ st with loading := true, error := none, summary := none },
        some (buildRequestBody st))

/-- The continuation of generateSummary on a 2xx response: the summary is
stored and the loading flag cleared. -/
def generateSummarySuccess (st : HomeState) (resp : SummaryResponse) : HomeState :=
  { st with summary := some resp, loading := false }

/-- The continuation of generateSummary on a failure (network error or
non-2xx response): the error message is stored and the loading flag
cleared. -/
def generateSummaryFailure (st : HomeState) (msg : String) : HomeState :=
  { st with error := some msg, loading := false }

/-- The synchronous prefix of fetchRepositories in page.tsx: the fetching
flag is set and the error cleared. -/
def fetchRepositoriesStart (st : HomeState) : HomeState :=
  { st with fetchingRepos := true, error := none }

/-- The continuation of fetchRepositories on success. -/
def fetchRepositoriesSuccess (st : HomeState) (data : List Repository) : HomeState :=
  { st with repos := data, fetchingRepos := false }

/-- The continuation of fetchRepositories on failure: the error message is
stored and the fetching flag cleared. -/
def fetchRepositoriesFailure (st : HomeState) (msg : String) : HomeState :=
  { st with error := some msg, fetchingRepos := false }

/-- The possible outcomes of the default-prompt fetch: a 2xx response with
a prompt, a non-2xx response, or a thrown network error. -/
inductive DefaultPromptOutcome
  | ok (prompt : String)
  | httpError
  | networkError
deriving Repr, DecidableEq

/-- fetchDefaultPrompt in page.tsx: on a 2xx response the default prompt is
stored; a non-2xx response is ignored and a thrown error is caught and
ignored, in both cases leaving the whole state untouched. -/
def fetchDefaultPromptStep (st : HomeState) : DefaultPromptOutcome → HomeState
  | .ok p => { st with defaultPrompt := p }
  | .httpError => st
  | .networkError => st

/-- The disabled condition of the Generate button in page.tsx: disabled
when no repository is selected or a submission is in flight. -/
def generateDisabled (st : HomeState) : Bool :=
  decide (st.selectedRepo = "") || st.loading

/-- The placeholder of the custom prompt textarea in page.tsx: the fetched
default prompt when truthy, a fallback instruction otherwise. -/
def promptPlaceholder (st : HomeState) : String :=
  if st.defaultPrompt = "" then
    "Enter custom instructions for generating your summary..."
  else st.defaultPrompt

/-- The user events handled by the Home component. -/
inductive UserAction
  | selectRepo (r : String)
  | setDateRange (d : Option UIDateRange)
  | savePRSelection (l : List Int)
  | editCustomPrompt (s : String)
  | togglePromptOpen (b : Bool)
  | useDefaultPrompt
  | clearCustomPrompt
  | clickGenerate
deriving Repr, DecidableEq

/-- The synchronous state transition of each user event of Home: the
setters wired to the child components, the prompt buttons, and the
Generate button (a no-op when the button is disabled). -/
def userStep (st : HomeState) : UserAction → HomeState
  | .selectRepo r => { st with selectedRepo := r }
  | .setDateRange d => { st with dateRange := d }
  | .savePRSelection l => { st with prioritizedPRs := l }
  | .editCustomPrompt s => { st with customPrompt := s }
  | .togglePromptOpen b => { st with isPromptOpen := b }
  | .useDefaultPrompt =>
      if st.defaultPrompt = "" then st
      else { st with customPrompt := st.defaultPrompt }
  | .clearCustomPrompt => { st with customPrompt := "" }
  | .clickGenerate =>
      if generateDisabled st then st else (generateSummaryStart st).1

end Frontend

namespace Selector

open Frontend (PullRequest)

/-- The page size constant PRS_PER_PAGE of PriorityPRSelector.tsx. -/
def PRS_PER_PAGE : Nat := 20

/-- The React state of the PriorityPRSelector component, one field per
useState hook; dialogOpen is the Dialog open flag. -/
structure SelectorState where
  dialogOpen : Bool
  prs : List PullRequest
  loading : Bool
  loadingMore : Bool
  error : Option String
  tempSelected : List Int
  currentPage : Int
  hasMore : Bool
deriving Repr, DecidableEq

/-- The initial values of the useState hooks of PriorityPRSelector, given
the selectedPRs prop from the parent. -/
def initialSelectorState (selectedPRs : List Int) : SelectorState :=
  { dialogOpen := false
    prs := []
    loading := false
    loadingMore := false
    error := none
    tempSelected := selectedPRs
    currentPage := 0
    hasMore := true }

/-- The query parameters of one pull-request fetch, plus the append flag
that the closure of fetchPRs carries into its continuations. -/
structure PRFetchRequest where
  page : Int
  per_page : Nat
  append : Bool
deriving Repr, DecidableEq

/-- The JSON payload of a pull-request fetch response: either the
paginated object shape or the legacy bare-array shape, both accepted by
fetchPRs. -/
inductive PRFetchResponse
  | paginated (items : List PullRequest) (page : Int) (has_more : Bool)
  | legacyArray (items : List PullRequest)
deriving Repr, DecidableEq

/-- The synchronous prefix of fetchPRs in PriorityPRSelector.tsx: an early
return when the repoName prop is empty (no request); otherwise the
loading-more flag is set for an append fetch, while a fresh fetch sets the
loading flag and resets the list, page and has-more flag; the error is
cleared and the GET request is issued. -/
def fetchPRsStart (repoName : String) (s : SelectorState) (page : Int)
    (append : Bool) : SelectorState × Option PRFetchRequest :=
  if repoName = "" then (s, none)
  else
    let s1 := if append then { s with loadingMore := true }
      else { s with loading := true, prs := [], currentPage := 0, hasMore := true }
    ({ s1 with error := none }, some { page := page, per_page := PRS_PER_PAGE, append := append })

/-- The continuation of fetchPRs on a 2xx response: items are extracted
from either response shape, appended or assigned according to the append
flag, the has-more flag and current page are updated (for the legacy array
shape, has-more is whether a full page arrived and the page is the
requested one), and the pertinent loading flag is cleared. -/
def fetchPRsSuccess (s : SelectorState) (req : PRFetchRequest)
    (resp : PRFetchResponse) : SelectorState :=
  let items := match resp with
    | .paginated items _ _ => items
    | .legacyArray items => items
  let nextHasMore := match resp with
    | .paginated _ _ h => h
    | .legacyArray items => decide (items.length = PRS_PER_PAGE)
  let nextPage := match resp with
    | .paginated _ p _ => p
    | .legacyArray _ => req.page
  let s1 := if req.append then { s with prs := s.prs ++ items } else { s with prs := items }
  let s2 := { s1 with hasMore := nextHasMore, currentPage := nextPage }
  if req.append then { s2 with loadingMore := false } else { s2 with loading := false }

/-- The continuation of fetchPRs on a failure (thrown error or non-2xx
response): the error message is stored and the pertinent loading flag is
cleared. -/
def fetchPRsFailure (s : SelectorState) (append : Bool) (msg : String) : SelectorState :=
  if append then { s with error := some msg, loadingMore := false }
  else { s with error := some msg, loading := false }

/-- loadMore in PriorityPRSelector.tsx: an early return when the has-more
flag is false (no request), otherwise an append fetch of the next page. -/
def loadMore (repoName : String) (s : SelectorState) :
    SelectorState × Option PRFetchRequest :=
  if s.hasMore = false then (s, none)
  else fetchPRsStart repoName s (s.currentPage + 1) true

/-- The rendering condition of the Load more button in
PriorityPRSelector.tsx: shown only when not loading, with no error, a
non-empty list and more pages available. -/
def loadMoreVisible (s : SelectorState) : Bool :=
  !s.loading && s.error.isNone && decide (s.prs.length > 0) && s.hasMore

/-- Whether the Load more button can actually be clicked: it must be
rendered and not disabled by the loading-more flag. -/
def loadMoreEnabled (s : SelectorState) : Bool :=
  loadMoreVisible s && !s.loadingMore

/-- handleToggle in PriorityPRSelector.tsx: membership toggle of a pull
request number in the temporary selection. -/
def handleToggle (tempSelected : List Int) (n : Int) : List Int :=
  if tempSelected.contains n then tempSelected.filter (fun m => decide (m ≠ n))
  else tempSelected ++ [n]

/-- The selector component together with its props: the repoName prop and
the parent selection (prioritizedPRs of Home, delivered as the selectedPRs
prop and updated through the onPRsChange callback). -/
structure PRDialogSys where
  repoName : String
  parentSelected : List Int
  sel : SelectorState
deriving Repr, DecidableEq

/-- The events acting on the selector dialog: opening it, toggling a
checkbox, clicking Load more, fetch completions, and the Save and Cancel
buttons. -/
inductive DialogEvent
  | openDialog
  | toggle (n : Int)
  | clickLoadMore
  | fetchDone (req : PRFetchRequest) (resp : PRFetchResponse)
  | fetchFail (append : Bool) (msg : String)
  | clickSave
  | clickCancel
deriving Repr, DecidableEq

/-- The state transition of each dialog event.  Opening the dialog runs the
effect of PriorityPRSelector.tsx: when a repository is set, a fresh fetch
starts and the temporary selection is reset to the committed one.  Load
more only fires when its button is rendered and enabled.  Save commits the
temporary selection through onPRsChange and closes; Cancel resets the
temporary selection to the committed one and closes. -/
def dialogStep (sys : PRDialogSys) : DialogEvent → PRDialogSys
  | .openDialog =>
      if sys.repoName = "" then
        { sys with sel := { sys.sel with dialogOpen := true } }
      else
        let s1 := (fetchPRsStart sys.repoName { sys.sel with dialogOpen := true } 0 false).1
        { sys with sel := { s1 with tempSelected := sys.parentSelected } }
  | .toggle n =>
      { sys with sel := { sys.sel with tempSelected := handleToggle sys.sel.tempSelected n } }
  | .clickLoadMore =>
      if loadMoreEnabled sys.sel then
        { sys with sel := (loadMore sys.repoName sys.sel).1 }
      else sys
  | .fetchDone req resp => { sys with sel := fetchPRsSuccess sys.sel req resp }
  | .fetchFail append msg => { sys with sel := fetchPRsFailure sys.sel append msg }
  | .clickSave =>
      { sys with parentSelected := sys.sel.tempSelected
                 sel := { sys.sel with dialogOpen := false } }
  | .clickCancel =>
      { sys with sel := { sys.sel with tempSelected := sys.parentSelected
                                       dialogOpen := false } }

/-- The selector component with the multiset of outstanding load-more
requests, for the concurrency claim about the Load more control. -/
structure LoadMoreSys where
  repoName : String
  sel : SelectorState
  inflight : List PRFetchRequest
deriving Repr, DecidableEq

/-- The events of the load-more loop: a user click on the Load more button
and the completion (success or failure) of the oldest outstanding
request. -/
inductive SelEvent
  | clickLoadMore
  | completeSuccess (resp : PRFetchResponse)
  | completeFailure (msg : String)
deriving Repr, DecidableEq

/-- One step of the load-more loop.  A click is delivered only when the
Load more button is rendered and enabled, and adds the request that
loadMore issues (if any) to the outstanding list; a completion removes the
oldest outstanding request and runs the corresponding continuation of
fetchPRs, and is a no-op when nothing is outstanding. -/
def selStep (sys : LoadMoreSys) : SelEvent → LoadMoreSys
  | .clickLoadMore =>
      if loadMoreEnabled sys.sel then
        let (s, r) := loadMore sys.repoName sys.sel
        { sys with sel := s, inflight := sys.inflight ++ r.toList }
      else sys
  | .completeSuccess resp =>
      match sys.inflight with
      | [] => sys
      | req :: rest => { sys with sel := fetchPRsSuccess sys.sel req resp, inflight := rest }
  | .completeFailure msg =>
      match sys.inflight with
      | [] => sys
      | req :: rest => { sys with sel := fetchPRsFailure sys.sel req.append msg, inflight := rest }

/-- Iterated steps of the load-more loop over a list of events. -/
def selRun (sys : LoadMoreSys) : List SelEvent → LoadMoreSys
  | [] => sys
  | e :: es => selRun (selStep sys e) es

/-- The load-more invariant: the loading-more flag is the exact mirror of
the outstanding load-more requests — no outstanding request when the flag
is down, exactly one (an append request) when it is up. -/
def loadMoreInvB (sys : LoadMoreSys) : Bool :=
  match sys.sel.loadingMore, sys.inflight with
  | false, [] => true
  | true, [r] => r.append
  | _, _ => false

end Selector

/-! Theorems settling the claims, in claim order. -/

namespace Backend

/-- Extracting the inclusive bounds from a successful range test. -/
theorem containsTs_bounds {r : Option DateRange} {t : Int}
    (h : DateRange.containsTs r t = true) (dr : DateRange) (hr : r = some dr) :
    (∀ s, dr.start_date = some s → s ≤ t) ∧ (∀ e, dr.end_date = some e → t ≤ e) := by
  subst hr
  unfold DateRange.containsTs at h
  rw [Bool.and_eq_true] at h
  refine ⟨fun s hs => ?_, fun e he => ?_⟩
  · have h1 := h.1
    rw [hs] at h1
    exact of_decide_eq_true h1
  · have h2 := h.2
    rw [he] at h2
    exact of_decide_eq_true h2

/-- The absent range imposes no constraint. -/
theorem containsTs_none (t : Int) : DateRange.containsTs none t = true := rfl

/-- A range with both bounds absent imposes no constraint. -/
theorem containsTs_noBounds (dr : DateRange) (h1 : dr.start_date = none)
    (h2 : dr.end_date = none) (t : Int) :
    DateRange.containsTs (some dr) t = true := by
  simp [DateRange.containsTs, h1, h2]

/-- Claim C1: for every valid date range supplied to listCommits or
listChangeRequestsInRange, every returned commit or change-request has its
creation/merge timestamp t with start ≤ t ≤ end inclusive; an absent start
removes the lower bound, an absent end removes the upper bound, and with
both absent (or with no range at all) every item is returned. -/
theorem C1_date_range_filter (commits : List Commit) (prs : List ChangeRequest)
    (r : Option DateRange) :
    (∀ c ∈ listCommits commits r, ∀ dr, r = some dr →
        (∀ s, dr.start_date = some s → s ≤ c.timestamp) ∧
        (∀ e, dr.end_date = some e → c.timestamp ≤ e)) ∧
    (∀ pr ∈ listChangeRequestsInRange prs r, ∀ dr, r = some dr →
        (∀ s, dr.start_date = some s → s ≤ pr.activityTs) ∧
        (∀ e, dr.end_date = some e → pr.activityTs ≤ e)) ∧
    listCommits commits none = commits ∧
    listChangeRequestsInRange prs none = prs ∧
    (∀ dr, dr.start_date = none → dr.end_date = none →
        listCommits commits (some dr) = commits ∧
        listChangeRequestsInRange prs (some dr) = prs) := by
  refine ⟨fun c hc dr hr => ?_, fun pr hpr dr hr => ?_, ?_, ?_, fun dr h1 h2 => ⟨?_, ?_⟩⟩
  · exact containsTs_bounds (List.mem_filter.mp hc).2 dr hr
  · exact containsTs_bounds (List.mem_filter.mp hpr).2 dr hr
  · exact List.filter_eq_self.mpr (fun c _ => containsTs_none c.timestamp)
  · exact List.filter_eq_self.mpr (fun pr _ => containsTs_none pr.activityTs)
  · exact List.filter_eq_self.mpr
      (fun c _ => containsTs_noBounds dr h1 h2 c.timestamp)
  · exact List.filter_eq_self.mpr
      (fun pr _ => containsTs_noBounds dr h1 h2 pr.activityTs)

/-- Witness for C1: a commit with timestamp 5 returned for the range
delimited by 1 and 9 satisfies both inclusive bounds. -/
theorem C1_date_range_filter_witness : (1 : Int) ≤ 5 ∧ (5 : Int) ≤ 9 := by
  have h := C1_date_range_filter [⟨"sha1", "init", 5, "ada"⟩] []
    (some ⟨some 1, some 9⟩)
  have hm : (⟨"sha1", "init", 5, "ada"⟩ : Commit) ∈
      listCommits [⟨"sha1", "init", 5, "ada"⟩] (some ⟨some 1, some 9⟩) := by decide
  have hb := h.1 ⟨"sha1", "init", 5, "ada"⟩ hm ⟨some 1, some 9⟩ rfl
  exact ⟨hb.1 1 rfl, hb.2 9 rfl⟩

/-- Splitting a list by a predicate splits its length. -/
theorem length_filter_partition {α : Type} (p : α → Bool) (l : List α) :
    (l.filter p).length + (l.filter (fun a => !(p a))).length = l.length := by
  induction l with
  | nil => rfl
  | cons a l ih =>
    cases h : p a with
    | true =>
      simp [List.filter_cons, h]
      omega
    | false =>
      simp [List.filter_cons, h]
      omega

/-- Claim C2: the counts in a SummaryResult are exactly the number of
commits and change-requests passed into the prompt-building step (the
collections after date filtering, the change-requests being the priority
and regular partitions together); with no date range and no priorities the
counts equal the total commit and change-request counts of the
repository. -/
theorem C2_analyzed_counts (data : RepoData) (req : SummaryRequest)
    (llm : String → String) :
    (generateSummary data req llm).commits_analyzed = (analyzedCommits data req).length ∧
    (generateSummary data req llm).prs_analyzed = (analyzedPRs data req).length ∧
    (priorityPRs data req).length + (regularPRs data req).length
      = (generateSummary data req llm).prs_analyzed ∧
    (req.date_range = none → req.prioritized_pr_numbers = [] →
      (generateSummary data req llm).commits_analyzed = data.commits.length ∧
      (generateSummary data req llm).prs_analyzed = data.change_requests.length) := by
  refine ⟨rfl, rfl, ?_, fun hr _ => ⟨?_, ?_⟩⟩
  · exact length_filter_partition _ (analyzedPRs data req)
  · show (analyzedCommits data req).length = data.commits.length
    unfold analyzedCommits listCommits
    rw [hr]
    congr 1
    exact List.filter_eq_self.mpr (fun c _ => containsTs_none c.timestamp)
  · show (analyzedPRs data req).length = data.change_requests.length
    unfold analyzedPRs listChangeRequestsInRange
    rw [hr]
    congr 1
    exact List.filter_eq_self.mpr (fun pr _ => containsTs_none pr.activityTs)

/-- Witness for C2: a repository with two commits and one change-request,
no date range and no priorities, yields counts 2 and 1. -/
theorem C2_analyzed_counts_witness :
    (generateSummary
        ⟨[⟨"a", "m1", 1, "ada"⟩, ⟨"b", "m2", 2, "ada"⟩],
         [⟨7, "t", none, "closed", [], 3, some 4⟩]⟩
        ⟨"acme/widgets", none, [], none⟩ (fun _ => "text")).commits_analyzed = 2 ∧
    (generateSummary
        ⟨[⟨"a", "m1", 1, "ada"⟩, ⟨"b", "m2", 2, "ada"⟩],
         [⟨7, "t", none, "closed", [], 3, some 4⟩]⟩
        ⟨"acme/widgets", none, [], none⟩ (fun _ => "text")).prs_analyzed = 1 := by
  have h := C2_analyzed_counts
    ⟨[⟨"a", "m1", 1, "ada"⟩, ⟨"b", "m2", 2, "ada"⟩],
     [⟨7, "t", none, "closed", [], 3, some 4⟩]⟩
    ⟨"acme/widgets", none, [], none⟩ (fun _ => "text")
  exact h.2.2.2 rfl rfl

end Backend

namespace Frontend

/-- A pull request whose raw state field says open while its merged
timestamp is present. -/
def openMergedPR : PullRequest :=
  { number := 42
    title := "Add caching"
    body := none
    state := "open"
    labels := []
    created_at := "2024-01-10T00:00:00Z"
    merged_at := some "2024-01-12T00:00:00Z" }

/-- Claim C3 counterexample: the state badge of PriorityPRSelector tests
the raw state field first, so a pull request with state open and a
non-null merged timestamp is classified Open, not Merged. -/
theorem C3_counterexample :
    openMergedPR.merged_at.isSome = true ∧
    prStateLabel openMergedPR = "Open" ∧
    prStateLabel openMergedPR ≠ "Merged" := by
  refine ⟨rfl, rfl, ?_⟩
  decide

/-- Claim C3 (amended): a change-request whose raw state field is not the
string open and whose merged timestamp is non-null (and non-empty) is
classified as merged regardless of the rest of the state field; when the
state field says open the item is classified as open even if a merged
timestamp is present. -/
theorem C3_merged_classification (pr : PullRequest)
    (hstate : pr.state ≠ "open") (hmerged : jsTruthyStr pr.merged_at = true) :
    prStateLabel pr = "Merged" := by
  unfold prStateLabel
  rw [if_neg hstate, if_pos hmerged]

/-- Witness for C3: a closed pull request with a merged timestamp is
classified Merged. -/
theorem C3_merged_classification_witness :
    prStateLabel
      ⟨41, "Fix bug", none, "closed", [], "2024-01-01T00:00:00Z",
        some "2024-01-02T00:00:00Z"⟩ = "Merged" :=
  C3_merged_classification
    ⟨41, "Fix bug", none, "closed", [], "2024-01-01T00:00:00Z",
      some "2024-01-02T00:00:00Z"⟩ (by decide) (by decide)

/-- Claim C4: the UI includes custom_prompt in the POST body exactly when
the textarea content trims to a non-empty string, sending the trimmed
text; a supplied custom prompt becomes the instruction header verbatim in
place of the default header, and an omitted one leaves the default
header. -/
theorem C4_custom_prompt (st : HomeState) (s : String) :
    (jsTrim st.customPrompt ≠ "" →
        (buildRequestBody st).custom_prompt = some (jsTrim st.customPrompt)) ∧
    (jsTrim st.customPrompt = "" → (buildRequestBody st).custom_prompt = none) ∧
    (s ≠ "" → Backend.instructionHeader (some s) = s) ∧
    Backend.instructionHeader none = Backend.defaultInstructionHeader ∧
    (jsTrim st.customPrompt ≠ "" →
        Backend.instructionHeader (buildRequestBody st).custom_prompt
          = jsTrim st.customPrompt) := by
  have hbody : jsTrim st.customPrompt ≠ "" →
      (buildRequestBody st).custom_prompt = some (jsTrim st.customPrompt) := by
    intro h
    show (if jsTrim st.customPrompt = "" then none else some (jsTrim st.customPrompt))
        = some (jsTrim st.customPrompt)
    rw [if_neg h]
  refine ⟨hbody, fun h => ?_, fun hs => ?_, rfl, fun h => ?_⟩
  · show (if jsTrim st.customPrompt = "" then none else some (jsTrim st.customPrompt))
        = none
    rw [if_pos h]
  · show (if s = "" then Backend.defaultInstructionHeader else s) = s
    rw [if_neg hs]
  · rw [hbody h]
    show (if jsTrim st.customPrompt = "" then Backend.defaultInstructionHeader
        else jsTrim st.customPrompt) = jsTrim st.customPrompt
    rw [if_neg h]

/-- Witness for C4: with the textarea holding the custom prompt of the
spec scenario surrounded by whitespace, the POST body carries the trimmed
text and the instruction header is exactly that text. -/
theorem C4_custom_prompt_witness :
    (buildRequestBody { initialHomeState with
        selectedRepo := "acme/widgets"
        customPrompt := " Write in third person " }).custom_prompt
      = some "Write in third person" ∧
    Backend.instructionHeader (buildRequestBody { initialHomeState with
        selectedRepo := "acme/widgets"
        customPrompt := " Write in third person " }).custom_prompt
      = "Write in third person" := by
  have ht : jsTrim " Write in third person " = "Write in third person" := by decide
  have h := C4_custom_prompt { initialHomeState with
    selectedRepo := "acme/widgets"
    customPrompt := " Write in third person " } "x"
  have h1 := h.1 (by rw [ht]; decide)
  have h5 := h.2.2.2.2 (by rw [ht]; decide)
  refine ⟨?_, ?_⟩
  · rw [h1]
    rw [ht]
  · rw [h5]
    exact ht

end Frontend

namespace Frontend

/-- Claim C5: the Generate control is disabled whenever no repository is
selected or a submission is in flight, and invoking the submit handler
with no repository selected is a no-op that issues no request and changes
no state. -/
theorem C5_generate_guard (st : HomeState) :
    (st.selectedRepo = "" ∨ st.loading = true → generateDisabled st = true) ∧
    (st.selectedRepo = "" → generateSummaryStart st = (st, none)) := by
  constructor
  · intro h
    rcases h with h | h
    · simp [generateDisabled, h]
    · simp [generateDisabled, h]
  · intro h
    unfold generateSummaryStart
    rw [if_pos h]

/-- Witness for C5: in the initial state no repository is selected, the
Generate control is disabled and the submit handler is a no-op. -/
theorem C5_generate_guard_witness :
    generateDisabled initialHomeState = true ∧
    generateSummaryStart initialHomeState = (initialHomeState, none) := by
  have h := C5_generate_guard initialHomeState
  exact ⟨h.1 (Or.inl rfl), h.2 rfl⟩

/-- Claim C6: a failed submission leaves the UI in the error state with no
partial result (the summary slot was cleared at submission start and stays
empty), and the current selections — repository, date range, prioritized
numbers and custom prompt text — are exactly as before the submission. -/
theorem C6_failure_frame (st : HomeState) (msg : String)
    (h : st.selectedRepo ≠ "") :
    (generateSummaryFailure (generateSummaryStart st).1 msg).error = some msg ∧
    (generateSummaryFailure (generateSummaryStart st).1 msg).summary = none ∧
    (generateSummaryFailure (generateSummaryStart st).1 msg).loading = false ∧
    (generateSummaryFailure (generateSummaryStart st).1 msg).selectedRepo = st.selectedRepo ∧
    (generateSummaryFailure (generateSummaryStart st).1 msg).dateRange = st.dateRange ∧
    (generateSummaryFailure (generateSummaryStart st).1 msg).prioritizedPRs = st.prioritizedPRs ∧
    (generateSummaryFailure (generateSummaryStart st).1 msg).customPrompt = st.customPrompt := by
  unfold generateSummaryStart generateSummaryFailure
  rw [if_neg h]
  exact ⟨rfl, rfl, rfl, rfl, rfl, rfl, rfl⟩

/-- Witness for C6: a failed submission from a state with a repository
selected and an old result displayed shows the error and clears the old
result. -/
theorem C6_failure_frame_witness :
    (generateSummaryFailure (generateSummaryStart { initialHomeState with
        selectedRepo := "acme/widgets"
        fetchingRepos := false
        summary := some ⟨"old text", "acme/widgets", 3, 2⟩ }).1 "boom").error
      = some "boom" ∧
    (generateSummaryFailure (generateSummaryStart { initialHomeState with
        selectedRepo := "acme/widgets"
        fetchingRepos := false
        summary := some ⟨"old text", "acme/widgets", 3, 2⟩ }).1 "boom").summary
      = none := by
  have h := C6_failure_frame { initialHomeState with
    selectedRepo := "acme/widgets"
    fetchingRepos := false
    summary := some ⟨"old text", "acme/widgets", 3, 2⟩ } "boom" (by decide)
  exact ⟨h.1, h.2.1⟩

/-- Claim C7: both failure outcomes of the default-prompt fetch (thrown
network error or non-2xx response) are swallowed, leaving the whole Home
state untouched — no error is set and the default prompt stays at its
empty initial value, so the textarea shows the fallback placeholder —
while every other failure in the pipeline surfaces its error message. -/
theorem C7_default_prompt_fails_open (st : HomeState) (msg : String)
    (sel : Selector.SelectorState) (append : Bool) :
    fetchDefaultPromptStep st DefaultPromptOutcome.httpError = st ∧
    fetchDefaultPromptStep st DefaultPromptOutcome.networkError = st ∧
    (fetchDefaultPromptStep initialHomeState DefaultPromptOutcome.httpError).defaultPrompt
      = "" ∧
    promptPlaceholder initialHomeState
      = "Enter custom instructions for generating your summary..." ∧
    (fetchRepositoriesFailure st msg).error = some msg ∧
    (generateSummaryFailure st msg).error = some msg ∧
    (Selector.fetchPRsFailure sel append msg).error = some msg := by
  refine ⟨rfl, rfl, rfl, rfl, rfl, rfl, ?_⟩
  unfold Selector.fetchPRsFailure
  cases append <;> rfl

end Frontend

namespace Selector

/-- The load-more invariant as a proposition: either the loading-more flag
is down and nothing is outstanding, or it is up and exactly one append
request is outstanding. -/
def LoadMoreInv (sys : LoadMoreSys) : Prop :=
  (sys.sel.loadingMore = false ∧ sys.inflight = []) ∨
  (sys.sel.loadingMore = true ∧ ∃ r, r.append = true ∧ sys.inflight = [r])

/-- A completed append fetch clears the loading-more flag. -/
theorem fetchPRsSuccess_loadingMore (s : SelectorState) (req : PRFetchRequest)
    (resp : PRFetchResponse) (h : req.append = true) :
    (fetchPRsSuccess s req resp).loadingMore = false := by
  unfold fetchPRsSuccess
  simp [h]

/-- A failed append fetch clears the loading-more flag. -/
theorem fetchPRsFailure_loadingMore (s : SelectorState) (msg : String) :
    (fetchPRsFailure s true msg).loadingMore = false := by
  unfold fetchPRsFailure
  simp

/-- One step of the load-more loop preserves the load-more invariant. -/
theorem loadMoreInv_step (sys : LoadMoreSys) (e : SelEvent)
    (h : LoadMoreInv sys) : LoadMoreInv (selStep sys e) := by
  cases e with
  | clickLoadMore =>
    by_cases he : loadMoreEnabled sys.sel = true
    · have hlm : sys.sel.loadingMore = false := by
        unfold loadMoreEnabled at he
        rcases Bool.and_eq_true _ _ |>.mp he with ⟨_, hnot⟩
        simpa using hnot
      have hhm : sys.sel.hasMore = true := by
        unfold loadMoreEnabled loadMoreVisible at he
        rcases Bool.and_eq_true _ _ |>.mp he with ⟨hvis, _⟩
        rcases Bool.and_eq_true _ _ |>.mp hvis with ⟨_, hm⟩
        exact hm
      have hin : sys.inflight = [] := by
        rcases h with ⟨_, hi⟩ | ⟨hl, _⟩
        · exact hi
        · rw [hl] at hlm
          cases hlm
      unfold selStep loadMore
      rw [he]
      simp only [if_true]
      rw [hhm]
      simp only [Bool.true_eq_false, if_false, reduceIte]
      unfold fetchPRsStart
      by_cases hr : sys.repoName = ""
      · rw [if_pos hr]
        exact Or.inl ⟨hlm, by simp [hin]⟩
      · rw [if_neg hr]
        refine Or.inr ⟨rfl, ⟨sys.sel.currentPage + 1, PRS_PER_PAGE, true⟩, rfl, ?_⟩
        simp [hin]
    · unfold selStep
      rw [Bool.not_eq_true] at he
      rw [he]
      simpa using h
  | completeSuccess resp =>
    rcases h with ⟨hl, hi⟩ | ⟨hl, r, hr, hi⟩
    · unfold selStep
      rw [hi]
      exact Or.inl ⟨hl, hi⟩
    · unfold selStep
      rw [hi]
      exact Or.inl ⟨fetchPRsSuccess_loadingMore sys.sel r resp hr, rfl⟩
  | completeFailure msg =>
    rcases h with ⟨hl, hi⟩ | ⟨hl, r, hr, hi⟩
    · unfold selStep
      rw [hi]
      exact Or.inl ⟨hl, hi⟩
    · unfold selStep
      rw [hi]
      have hfix : (fetchPRsFailure sys.sel r.append msg).loadingMore = false := by
        rw [hr]
        exact fetchPRsFailure_loadingMore sys.sel msg
      exact Or.inl ⟨hfix, rfl⟩

/-- Every run of the load-more loop preserves the load-more invariant. -/
theorem loadMoreInv_run (es : List SelEvent) (sys : LoadMoreSys)
    (h : LoadMoreInv sys) : LoadMoreInv (selRun sys es) := by
  induction es generalizing sys with
  | nil => exact h
  | cons e es ih => exact ih (selStep sys e) (loadMoreInv_step sys e h)

/-- Claim C8: from any state satisfying the load-more invariant (in
particular the freshly opened selector), after any sequence of clicks and
completions at most one load-more request is ever outstanding, and while
one is outstanding the Load more control is disabled; moreover invoking
loadMore when the has-more flag is false issues no request. -/
theorem C8_load_more_serialized (sys : LoadMoreSys) (es : List SelEvent)
    (h : LoadMoreInv sys) :
    LoadMoreInv (selRun sys es) ∧
    (selRun sys es).inflight.length ≤ 1 ∧
    ((selRun sys es).inflight ≠ [] →
        loadMoreEnabled (selRun sys es).sel = false) ∧
    (sys.sel.hasMore = false → (loadMore sys.repoName sys.sel).2 = none) := by
  have hrun := loadMoreInv_run es sys h
  refine ⟨hrun, ?_, ?_, ?_⟩
  · rcases hrun with ⟨_, hi⟩ | ⟨_, r, _, hi⟩ <;> rw [hi] <;> simp
  · intro hne
    rcases hrun with ⟨_, hi⟩ | ⟨hl, r, _, hi⟩
    · exact absurd hi hne
    · simp [loadMoreEnabled, hl]
  · intro hm
    unfold loadMore
    rw [hm]
    rfl

/-- Witness for C8: two consecutive clicks on Load more from a loaded
dialog leave at most one request outstanding. -/
theorem C8_load_more_serialized_witness :
    (selRun
      ⟨"acme/widgets",
        ⟨true, [⟨1, "t", none, "open", [], "2024-01-01T00:00:00Z", none⟩],
          false, false, none, [], 0, true⟩, []⟩
      [SelEvent.clickLoadMore, SelEvent.clickLoadMore]).inflight.length ≤ 1 :=
  (C8_load_more_serialized
    ⟨"acme/widgets",
      ⟨true, [⟨1, "t", none, "open", [], "2024-01-01T00:00:00Z", none⟩],
        false, false, none, [], 0, true⟩, []⟩
    [SelEvent.clickLoadMore, SelEvent.clickLoadMore]
    (Or.inl ⟨rfl, rfl⟩)).2.1

end Selector

namespace Frontend

/-- Claim C9 counterexample: from the error state left by a failed
repository fetch, typing into the custom prompt textarea is a
user-triggered transition to a different state, yet the error stays
displayed, so the next user action does not clear the error. -/
theorem C9_counterexample :
    ({ initialHomeState with
        fetchingRepos := false
        error := some "Failed to fetch repositories" } : HomeState).error ≠ none ∧
    userStep { initialHomeState with
          fetchingRepos := false
          error := some "Failed to fetch repositories" }
        (UserAction.editCustomPrompt "draft")
      ≠ { initialHomeState with
          fetchingRepos := false
          error := some "Failed to fetch repositories" } ∧
    (userStep { initialHomeState with
          fetchingRepos := false
          error := some "Failed to fetch repositories" }
        (UserAction.editCustomPrompt "draft")).error ≠ none := by
  refine ⟨?_, ?_, ?_⟩ <;> decide

/-- Claim C9 (amended): the error overlay is not cleared by every next
user action; it is cleared exactly when a new request starts — clicking
Generate with a repository selected and no submission in flight, or
re-running the repository fetch — while every other user action leaves
the error unchanged. -/
theorem C9_error_clearing (st : HomeState) (a : UserAction)
    (hrepo : st.selectedRepo ≠ "") (hload : st.loading = false) :
    (userStep st UserAction.clickGenerate).error = none ∧
    (fetchRepositoriesStart st).error = none ∧
    (a ≠ UserAction.clickGenerate → (userStep st a).error = st.error) := by
  refine ⟨?_, rfl, ?_⟩
  · have hd : generateDisabled st = false := by
      simp [generateDisabled, hrepo, hload]
    unfold userStep
    rw [hd]
    simp only [Bool.false_eq_true, if_false, reduceIte]
    unfold generateSummaryStart
    rw [if_neg hrepo]
  · intro hne
    cases a with
    | selectRepo r => rfl
    | setDateRange d => rfl
    | savePRSelection l => rfl
    | editCustomPrompt s => rfl
    | togglePromptOpen b => rfl
    | useDefaultPrompt =>
      unfold userStep
      by_cases h : st.defaultPrompt = ""
      · rw [if_pos h]
      · rw [if_neg h]
    | clearCustomPrompt => rfl
    | clickGenerate => exact absurd rfl hne

/-- Witness for C9 (amended): from an error state with a repository
selected, clicking Generate clears the error while picking a repository
from the list does not. -/
theorem C9_error_clearing_witness :
    (userStep { initialHomeState with
        selectedRepo := "acme/widgets"
        fetchingRepos := false
        error := some "boom" }
      UserAction.clickGenerate).error = none ∧
    (userStep { initialHomeState with
        selectedRepo := "acme/widgets"
        fetchingRepos := false
        error := some "boom" }
      (UserAction.selectRepo "acme/other")).error = some "boom" := by
  have h := C9_error_clearing { initialHomeState with
      selectedRepo := "acme/widgets"
      fetchingRepos := false
      error := some "boom" }
    (UserAction.selectRepo "acme/other") (by decide) rfl
  refine ⟨h.1, ?_⟩
  rw [h.2.2 (by decide)]

end Frontend

namespace Selector

/-- Claim C10: the selection visible to the parent changes only on Save,
at which point it becomes exactly the temporary selection of the dialog;
opening the dialog, toggling checkboxes, loading more pages, fetch
completions and Cancel all leave the parent selection unchanged, while
Cancel (and opening with a repository set) resets the temporary selection
to the committed one. -/
theorem C10_selection_commit (sys : PRDialogSys) (e : DialogEvent) :
    (e ≠ DialogEvent.clickSave →
        (dialogStep sys e).parentSelected = sys.parentSelected) ∧
    (dialogStep sys DialogEvent.clickSave).parentSelected = sys.sel.tempSelected ∧
    (dialogStep sys DialogEvent.clickCancel).sel.tempSelected = sys.parentSelected ∧
    (sys.repoName ≠ "" →
        (dialogStep sys DialogEvent.openDialog).sel.tempSelected
          = sys.parentSelected) := by
  refine ⟨?_, rfl, rfl, ?_⟩
  · intro hne
    cases e with
    | openDialog =>
      simp only [dialogStep]
      split <;> rfl
    | toggle n => rfl
    | clickLoadMore =>
      simp only [dialogStep]
      split <;> rfl
    | fetchDone req resp => rfl
    | fetchFail append msg => rfl
    | clickSave => exact absurd rfl hne
    | clickCancel => rfl
  · intro h
    unfold dialogStep
    rw [if_neg h]

/-- Witness for C10: toggling a checkbox leaves the parent selection at
its committed value, and Save commits the temporary selection. -/
theorem C10_selection_commit_witness :
    (dialogStep ⟨"acme/widgets", [1, 2],
        ⟨true, [], false, false, none, [3], 0, true⟩⟩
      (DialogEvent.toggle 7)).parentSelected = [1, 2] ∧
    (dialogStep ⟨"acme/widgets", [1, 2],
        ⟨true, [], false, false, none, [3], 0, true⟩⟩
      DialogEvent.clickSave).parentSelected = [3] := by
  have h := C10_selection_commit ⟨"acme/widgets", [1, 2],
    ⟨true, [], false, false, none, [3], 0, true⟩⟩ (DialogEvent.toggle 7)
  exact ⟨h.1 (by decide), h.2.1⟩

end Selector
